import Mathlib

/-
Verification of the license-code verification service (Netlify handler,
two variants: machine-bound and machine-unbound) against its specification.
The handlers are embedded shallowly: the Supabase table is a list of rows,
the select / update calls are functions on it, JSON-body values are a small
JavaScript value type, and store faults are injected parameters.
-/

set_option linter.unusedVariables false

/-- JavaScript runtime values that can appear in a parsed JSON request body
(strings, numbers, booleans, null), plus `vUndefined` for an absent field. -/
inductive JSValue where
  | vStr : String → JSValue
  | vNum : Int → JSValue
  | vBool : Bool → JSValue
  | vNull : JSValue
  | vUndefined : JSValue
  deriving DecidableEq

/-- Truthiness of a JavaScript value, as tested by `!code` / `!machineId`. -/
def truthy : JSValue → Bool
  | .vStr s => !(s == "")
  | .vNum n => !(n == 0)
  | .vBool b => b
  | .vNull => false
  | .vUndefined => false

/-- Whitespace characters removed by JavaScript `String.prototype.trim`
(the ASCII fragment, which covers the verification-code strings). -/
def jsWhite (c : Char) : Bool :=
  c == ' ' || c == '\t' || c == '\n' || c == '\r' || c == '\x0b' || c == '\x0c'

/-- JavaScript `s.trim()`: drop leading and trailing whitespace. -/
def jsTrimStr (s : String) : String :=
  ⟨((s.data.dropWhile jsWhite).reverse.dropWhile jsWhite).reverse⟩

/-- Result of evaluating `v.trim()`: `some` of the trimmed string when `v`
is a string, `none` when the call throws a TypeError (non-string receiver). -/
def jsTrim : JSValue → Option String
  | .vStr s => some (jsTrimStr s)
  | _ => none

/-- Whether a JavaScript value is a string, i.e. `typeof v` is `string`. -/
def isStr : JSValue → Bool
  | .vStr _ => true
  | _ => false

/-- The underlying string of a string value (only used under an `isStr` guard,
mirroring the short-circuit in the machine-unbound validation). -/
def strOf : JSValue → String
  | .vStr s => s
  | _ => ""

/-- The JavaScript value read back from a nullable database column
(SQL NULL comes back as JavaScript null). -/
def dbVal : Option JSValue → JSValue
  | none => .vNull
  | some v => v

/-- A row of the `verification_codes` table. -/
structure Record where
  id : Nat
  code : String
  is_used : Bool
  machine_id : Option JSValue
  used_at : Option Nat
  deriving DecidableEq

/-- The query `.from("verification_codes").select("*").eq("code", c).single()`:
`(some row, none)` when exactly one row matches, otherwise
`(none, some "PGRST116")` — PostgREST reports PGRST116 when `.single()` sees
zero (or several) rows, with null data. -/
def selectSingle (store : List Record) (c : String) : Option Record × Option String :=
  match store.filter (fun r => r.code == c) with
  | [r] => (some r, none)
  | _ => (none, some "PGRST116")

/-- The select step including possible store faults: `some ec` injects a
store-reported error with code `ec` (data comes back null), `none` lets the
query run against the table. -/
def doSelect (store : List Record) (c : String) (fault : Option String) :
    Option Record × Option String :=
  match fault with
  | some ec => (none, some ec)
  | none => selectSingle store c

/-- The statement `.update(fields).eq("id", i)`: rewrite every row whose
`id` equals `i`. -/
def updateById (store : List Record) (i : Nat) (f : Record → Record) : List Record :=
  store.map fun r => if r.id = i then f r else r

/-- The field assignment of the machine-bound update:
`is_used: true, used_at: now, machine_id: machineId`. -/
def activateMB (m : JSValue) (now : Nat) (r : Record) : Record :=
  { r with is_used := true, used_at := some now, machine_id := some m }

/-- The field assignment of the machine-unbound update:
`is_used: true, used_at: now` — `machine_id` is not touched. -/
def activateUB (now : Nat) (r : Record) : Record :=
  { r with is_used := true, used_at := some now }

/-- HTTP JSON body with the `success` flag and `message`. -/
structure RespBody where
  success : Bool
  message : String
  deriving DecidableEq

/-- HTTP response: status code plus JSON body (`none` models the empty
string body of the 204 pre-flight response). -/
structure Response where
  statusCode : Nat
  body : Option RespBody
  deriving DecidableEq

/-- Supabase connection configuration read from the process environment. -/
structure Env where
  supabaseUrl : Option String
  supabaseAnonKey : Option String
  deriving DecidableEq

/-- Falsiness of an environment variable: absent or the empty string. -/
def strFalsy : Option String → Bool
  | none => true
  | some s => s == ""

/-- Parsed machine-bound request body with fields `code` and `machineId`
(an absent field is `vUndefined`). -/
structure BodyMB where
  code : JSValue
  machineId : JSValue
  deriving DecidableEq

/-- Machine-bound request event: HTTP method and the outcome of parsing the
raw body (`none` when `JSON.parse` or the destructuring throws). -/
structure EventMB where
  httpMethod : String
  body : Option BodyMB
  deriving DecidableEq

/-- Outcome of one handler invocation: the HTTP response, the table after
the call, and how many select / update statements reached the store. -/
structure HandlerResult where
  resp : Response
  store : List Record
  selects : Nat
  updates : Nat
  deriving DecidableEq

/-- Steps 3-6 of the machine-bound handler after the select has returned
`sel = (data, error)`: the PGRST116 filter, the not-found check, the
used-code branches and the first-time activation update. The `Nat` in the
result counts update statements sent to the store. -/
def applySelected (store : List Record) (m : JSValue) (now : Nat) (uf : Bool)
    (sel : Option Record × Option String) : Response × List Record × Nat :=
  if (match sel.2 with | some ec => !(ec == "PGRST116") | none => false) then
    (⟨500, some ⟨false, "Database query failed."⟩⟩, store, 0)
  else
    match sel.1 with
    | none => (⟨404, some ⟨false, "Invalid verification code."⟩⟩, store, 0)
    | some codeData =>
      if codeData.is_used then
        if dbVal codeData.machine_id == m then
          (⟨200, some ⟨true, "Verification successful."⟩⟩, store, 0)
        else
          (⟨403, some ⟨false, "This code has already been used on another computer."⟩⟩,
            store, 0)
      else
        if uf then
          (⟨500, some ⟨false, "Failed to activate code."⟩⟩, store, 1)
        else
          (⟨200, some ⟨true, "Application activated successfully."⟩⟩,
            updateById store codeData.id (activateMB m now), 1)

/-- The machine-bound variant's `exports.handler`, as a function of the
environment, the event, the current table contents, injected store faults
(`sf`: select error code, `uf`: update failure) and the current time. -/
def handlerMB (env : Env) (ev : EventMB) (store : List Record)
    (sf : Option String) (uf : Bool) (now : Nat) : HandlerResult :=
  if ev.httpMethod = "OPTIONS" then
    ⟨⟨204, none⟩, store, 0, 0⟩
  else if ev.httpMethod ≠ "POST" then
    ⟨⟨405, some ⟨false, "Method Not Allowed"⟩⟩, store, 0, 0⟩
  else if strFalsy env.supabaseUrl || strFalsy env.supabaseAnonKey then
    ⟨⟨500, some ⟨false, "Server configuration error."⟩⟩, store, 0, 0⟩
  else
    match ev.body with
    | none =>
      ⟨⟨500, some ⟨false, "An unexpected error occurred."⟩⟩, store, 0, 0⟩
    | some b =>
      if !truthy b.code || !truthy b.machineId then
        ⟨⟨400, some ⟨false, "Verification code and machine ID are required."⟩⟩,
          store, 0, 0⟩
      else
        match jsTrim b.code with
        | none =>
          ⟨⟨500, some ⟨false, "An unexpected error occurred."⟩⟩, store, 0, 0⟩
        | some c =>
          let res := applySelected store b.machineId now uf (doSelect store c sf)
          ⟨res.1, res.2.1, 1, res.2.2⟩

/-- Parsed machine-unbound request body with the single field `code`. -/
structure BodyUB where
  code : JSValue
  deriving DecidableEq

/-- Machine-unbound request event: HTTP method and the outcome of parsing
the raw body (`none` when `JSON.parse` or the destructuring throws). -/
structure EventUB where
  httpMethod : String
  body : Option BodyUB
  deriving DecidableEq

/-- Steps 3-6 of the machine-unbound handler after the select: the PGRST116
filter, the combined not-found-or-already-used check, and the update that
sets only `is_used` and `used_at`. -/
def applySelectedUB (store : List Record) (now : Nat) (uf : Bool)
    (sel : Option Record × Option String) : Response × List Record × Nat :=
  if (match sel.2 with | some ec => !(ec == "PGRST116") | none => false) then
    (⟨500, some ⟨false, "Database query failed."⟩⟩, store, 0)
  else
    match sel.1 with
    | none => (⟨404, some ⟨false, "Invalid or already used verification code."⟩⟩, store, 0)
    | some data =>
      if data.is_used then
        (⟨404, some ⟨false, "Invalid or already used verification code."⟩⟩, store, 0)
      else
        if uf then
          (⟨500, some ⟨false, "Failed to update code status."⟩⟩, store, 1)
        else
          (⟨200, some ⟨true, "Verification successful. Access granted."⟩⟩,
            updateById store data.id (activateUB now), 1)

/-- The machine-unbound variant's `exports.handler`. -/
def handlerUB (env : Env) (ev : EventUB) (store : List Record)
    (sf : Option String) (uf : Bool) (now : Nat) : HandlerResult :=
  if ev.httpMethod = "OPTIONS" then
    ⟨⟨204, none⟩, store, 0, 0⟩
  else if ev.httpMethod ≠ "POST" then
    ⟨⟨405, some ⟨false, "Method Not Allowed"⟩⟩, store, 0, 0⟩
  else if strFalsy env.supabaseUrl || strFalsy env.supabaseAnonKey then
    ⟨⟨500, some ⟨false, "Server configuration error."⟩⟩, store, 0, 0⟩
  else
    match ev.body with
    | none =>
      ⟨⟨500, some ⟨false, "An unexpected error occurred."⟩⟩, store, 0, 0⟩
    | some b =>
      if !truthy b.code || !isStr b.code || jsTrimStr (strOf b.code) == "" then
        ⟨⟨400, some ⟨false, "Verification code is required."⟩⟩, store, 0, 0⟩
      else
        let res := applySelectedUB store now uf (doSelect store (jsTrimStr (strOf b.code)) sf)
        ⟨res.1, res.2.1, 1, res.2.2⟩

/-- Interleaving of two concurrent machine-bound requests for the same code
in which both selects observe the initial table before either update runs;
each request then applies exactly the handler's post-select step
`applySelected` to the table as it stands when its update executes. -/
def raceMB (store : List Record) (c : String) (m1 m2 : JSValue)
    (now1 now2 : Nat) : Response × Response × List Record :=
  let sel1 := selectSingle store c
  let sel2 := selectSingle store c
  let step1 := applySelected store m1 now1 false sel1
  let step2 := applySelected step1.2.1 m2 now2 false sel2
  (step1.1, step2.1, step2.2.1)

/-- One machine-bound invocation's inputs, for request sequences. -/
structure CallMB where
  ev : EventMB
  sf : Option String
  uf : Bool
  now : Nat

/-- Table contents after a sequence of machine-bound invocations. -/
def runMB (env : Env) (calls : List CallMB) (store : List Record) : List Record :=
  calls.foldl (fun st q => (handlerMB env q.ev st q.sf q.uf q.now).store) store

/-- One machine-unbound invocation's inputs, for request sequences. -/
structure CallUB where
  ev : EventUB
  sf : Option String
  uf : Bool
  now : Nat

/-- Table contents after a sequence of machine-unbound invocations. -/
def runUB (env : Env) (calls : List CallUB) (store : List Record) : List Record :=
  calls.foldl (fun st q => (handlerUB env q.ev st q.sf q.uf q.now).store) store

/-- Data-model invariant of the specification: a used row has a non-null
`machine_id`, and `used_at` is set exactly when the row is used. -/
def recordInv (r : Record) : Bool :=
  (!r.is_used || r.machine_id.isSome) && (r.used_at.isSome == r.is_used)

/-- The `used_at` ↔ `is_used` half of the invariant on its own. -/
def usedAtInv (r : Record) : Bool :=
  r.used_at.isSome == r.is_used

/-- Shape of every response the handlers can emit: one of the documented
status codes, an empty body exactly for 204, and success flag true exactly
for 200. -/
def structuredResp (p : Response) : Bool :=
  ([200, 204, 400, 403, 404, 405, 500] : List Nat).contains p.statusCode &&
  (p.body.isNone == (p.statusCode == 204)) &&
  (match p.body with
   | some rb => rb.success == (p.statusCode == 200)
   | none => true)

/-- A well-formed environment used in concrete instances. -/
def envW : Env := ⟨some "url", some "key"⟩

/-- A never-used row with code "K". -/
def rowK : Record := ⟨1, "K", false, none, none⟩

/-- A used row with code "L", bound to machine "M" at time 3. -/
def rowUsed : Record := ⟨2, "L", true, some (.vStr "M"), some 3⟩

/-- `rowK` after machine-bound activation by machine "A" at time 7. -/
def rowKA : Record := ⟨1, "K", true, some (.vStr "A"), some 7⟩

/-- `rowK` after machine-unbound activation at time 7: `machine_id` stays null. -/
def rowKUB : Record := ⟨1, "K", true, none, some 7⟩

/-- A machine-bound activation request for code "K" by machine "A" at time 7. -/
def callA : CallMB := ⟨⟨"POST", some ⟨.vStr "K", .vStr "A"⟩⟩, none, false, 7⟩

/-- A machine-unbound activation request for code "K" at time 7. -/
def callU : CallUB := ⟨⟨"POST", some ⟨.vStr "K"⟩⟩, none, false, 7⟩

example :
    handlerMB envW ⟨"POST", some ⟨.vStr "K", .vStr "A"⟩⟩
        [⟨1, "K", false, none, none⟩] none false 7 =
      ⟨⟨200, some ⟨true, "Application activated successfully."⟩⟩,
        [⟨1, "K", true, some (.vStr "A"), some 7⟩], 1, 1⟩ := by
  decide

example :
    handlerUB envW ⟨"POST", some ⟨.vStr " K "⟩⟩
        [⟨1, "K", false, none, none⟩] none false 7 =
      ⟨⟨200, some ⟨true, "Verification successful. Access granted."⟩⟩,
        [⟨1, "K", true, none, some 7⟩], 1, 1⟩ := by
  decide

/-- Rows whose id is never hit are left unchanged by `updateById`. -/
theorem updateById_eq_of_ne (l : List Record) (i : Nat) (f : Record → Record)
    (h : ∀ x ∈ l, x.id ≠ i) : updateById l i f = l := by
  induction l with
  | nil => rfl
  | cons a t ih =>
    have ha : a.id ≠ i := h a (List.mem_cons_self a t)
    have ht := ih (fun x hx => h x (List.mem_cons_of_mem a hx))
    simp only [updateById, List.map_cons, if_neg ha]
    exact congrArg (List.cons a) ht

/-- With pairwise-distinct ids, updating by the id of a member rewrites
exactly that one row and leaves every other row in place. -/
theorem updateById_split (l : List Record) (r : Record) (f : Record → Record)
    (hmem : r ∈ l) (hnd : (l.map Record.id).Nodup) :
    ∃ l1 l2, l = l1 ++ r :: l2 ∧ updateById l r.id f = l1 ++ f r :: l2 := by
  induction l with
  | nil => cases hmem
  | cons a t ih =>
    rw [List.map_cons, List.nodup_cons] at hnd
    rcases List.mem_cons.mp hmem with rfl | hmem'
    · refine ⟨[], t, rfl, ?_⟩
      have ht : ∀ x ∈ t, x.id ≠ r.id := by
        intro x hx he
        exact hnd.1 (he ▸ List.mem_map_of_mem Record.id hx)
      simp only [updateById, List.map_cons, if_pos rfl, List.nil_append]
      exact congrArg (List.cons (f r)) (updateById_eq_of_ne t r.id f ht)
    · have ha : a.id ≠ r.id := by
        intro he
        exact hnd.1 (by rw [he]; exact List.mem_map_of_mem Record.id hmem')
      rcases ih hmem' hnd.2 with ⟨l1, l2, h1, h2⟩
      refine ⟨a :: l1, l2, by rw [h1]; rfl, ?_⟩
      simp only [updateById, List.map_cons, if_neg ha, List.cons_append]
      exact congrArg (List.cons a) h2

/-- Every row of an updated table is an original row or the image of one. -/
theorem mem_updateById (l : List Record) (i : Nat) (f : Record → Record)
    (x : Record) (hx : x ∈ updateById l i f) : x ∈ l ∨ ∃ y ∈ l, x = f y := by
  rcases List.mem_map.mp hx with ⟨y, hy, hxy⟩
  by_cases h : y.id = i
  · right; exact ⟨y, hy, by rw [← hxy, if_pos h]⟩
  · left; rw [← hxy, if_neg h]; exact hy

/-- A unique filter match makes `.single()` return that row without error. -/
theorem selectSingle_found (store : List Record) (c : String) (r : Record)
    (hfind : store.filter (fun x => x.code == c) = [r]) :
    selectSingle store c = (some r, none) := by
  unfold selectSingle; rw [hfind]

/-- No filter match makes `.single()` report PGRST116 with null data. -/
theorem selectSingle_empty (store : List Record) (c : String)
    (hfind : store.filter (fun x => x.code == c) = []) :
    selectSingle store c = (none, some "PGRST116") := by
  unfold selectSingle; rw [hfind]

/-- Post-select step on a found unused row: first-time activation. -/
theorem applySelected_unused (store : List Record) (m : JSValue) (now : Nat)
    (r : Record) (hr : r.is_used = false) :
    applySelected store m now false (some r, none) =
      (⟨200, some ⟨true, "Application activated successfully."⟩⟩,
        updateById store r.id (activateMB m now), 1) := by
  simp [applySelected, hr]

/-- Post-select step on a used row bound to the same machine: idempotent
success without any update statement. -/
theorem applySelected_same (store : List Record) (m : JSValue) (now : Nat)
    (uf : Bool) (r : Record) (hr : r.is_used = true)
    (hm : (dbVal r.machine_id == m) = true) :
    applySelected store m now uf (some r, none) =
      (⟨200, some ⟨true, "Verification successful."⟩⟩, store, 0) := by
  simp [applySelected, hr, hm]

/-- Post-select step on a used row bound to a different machine: 403. -/
theorem applySelected_other (store : List Record) (m : JSValue) (now : Nat)
    (uf : Bool) (r : Record) (hr : r.is_used = true)
    (hm : (dbVal r.machine_id == m) = false) :
    applySelected store m now uf (some r, none) =
      (⟨403, some ⟨false, "This code has already been used on another computer."⟩⟩,
        store, 0) := by
  simp [applySelected, hr, hm]

/-- Post-select step when the select saw no row: PGRST116 is let through
the error filter and the unknown-code 404 is produced. -/
theorem applySelected_none (store : List Record) (m : JSValue) (now : Nat)
    (uf : Bool) :
    applySelected store m now uf (none, some "PGRST116") =
      (⟨404, some ⟨false, "Invalid verification code."⟩⟩, store, 0) := by
  simp [applySelected]

/-- Machine-unbound post-select step when the select saw no row. -/
theorem applySelectedUB_none (store : List Record) (now : Nat) (uf : Bool) :
    applySelectedUB store now uf (none, some "PGRST116") =
      (⟨404, some ⟨false, "Invalid or already used verification code."⟩⟩, store, 0) := by
  simp [applySelectedUB]

/-- Machine-unbound post-select step on a used row: 404, no update. -/
theorem applySelectedUB_used (store : List Record) (now : Nat) (uf : Bool)
    (r : Record) (hr : r.is_used = true) :
    applySelectedUB store now uf (some r, none) =
      (⟨404, some ⟨false, "Invalid or already used verification code."⟩⟩, store, 0) := by
  simp [applySelectedUB, hr]

/-- Machine-unbound post-select step on an unused row: activation that sets
only `is_used` and `used_at`. -/
theorem applySelectedUB_unused (store : List Record) (now : Nat)
    (r : Record) (hr : r.is_used = false) :
    applySelectedUB store now false (some r, none) =
      (⟨200, some ⟨true, "Verification successful. Access granted."⟩⟩,
        updateById store r.id (activateUB now), 1) := by
  simp [applySelectedUB, hr]

/-- A POST request that passes configuration check, body parse and input
validation runs the select and then the post-select step. -/
theorem handlerMB_post (env : Env) (b : BodyMB) (store : List Record)
    (sf : Option String) (uf : Bool) (now : Nat) (c : String)
    (henv : (strFalsy env.supabaseUrl || strFalsy env.supabaseAnonKey) = false)
    (hcode : truthy b.code = true) (hmid : truthy b.machineId = true)
    (htrim : jsTrim b.code = some c) :
    handlerMB env ⟨"POST", some b⟩ store sf uf now =
      ⟨(applySelected store b.machineId now uf (doSelect store c sf)).1,
        (applySelected store b.machineId now uf (doSelect store c sf)).2.1, 1,
        (applySelected store b.machineId now uf (doSelect store c sf)).2.2⟩ := by
  simp only [handlerMB]
  rw [if_neg (by decide), if_neg (by decide), if_neg (by simp [henv])]
  simp only [hcode, hmid, Bool.not_true, Bool.or_self, Bool.false_or, if_false]
  rw [htrim, if_neg (by decide)]

/-- Machine-unbound analogue of `handlerMB_post`. -/
theorem handlerUB_post (env : Env) (b : BodyUB) (store : List Record)
    (sf : Option String) (uf : Bool) (now : Nat)
    (henv : (strFalsy env.supabaseUrl || strFalsy env.supabaseAnonKey) = false)
    (hcode : truthy b.code = true) (hstr : isStr b.code = true)
    (htrim : (jsTrimStr (strOf b.code) == "") = false) :
    handlerUB env ⟨"POST", some b⟩ store sf uf now =
      ⟨(applySelectedUB store now uf (doSelect store (jsTrimStr (strOf b.code)) sf)).1,
        (applySelectedUB store now uf (doSelect store (jsTrimStr (strOf b.code)) sf)).2.1, 1,
        (applySelectedUB store now uf (doSelect store (jsTrimStr (strOf b.code)) sf)).2.2⟩ := by
  simp only [handlerUB]
  rw [if_neg (by decide), if_neg (by decide), if_neg (by simp [henv])]
  simp only [hcode, hstr, htrim, Bool.not_true, Bool.or_self, Bool.false_or, if_false]
  rw [if_neg (by decide)]

/-- The post-select step either leaves the table unchanged or performs the
machine-bound activation update on the selected row. -/
theorem applySelected_store_shape (store : List Record) (m : JSValue)
    (now : Nat) (uf : Bool) (sel : Option Record × Option String) :
    (applySelected store m now uf sel).2.1 = store ∨
    ∃ r : Record, sel.1 = some r ∧ r.is_used = false ∧
      (applySelected store m now uf sel).2.1 =
        updateById store r.id (activateMB m now) := by
  unfold applySelected
  split
  · exact Or.inl rfl
  · split
    · exact Or.inl rfl
    · rename_i codeData heq
      split
      · split
        · exact Or.inl rfl
        · exact Or.inl rfl
      · rename_i hused
        split
        · exact Or.inl rfl
        · exact Or.inr ⟨codeData, heq, Bool.not_eq_true _ ▸ hused, rfl⟩

/-- The machine-unbound post-select step either leaves the table unchanged
or performs the unbound activation update on the selected row. -/
theorem applySelectedUB_store_shape (store : List Record) (now : Nat)
    (uf : Bool) (sel : Option Record × Option String) :
    (applySelectedUB store now uf sel).2.1 = store ∨
    ∃ r : Record, sel.1 = some r ∧ r.is_used = false ∧
      (applySelectedUB store now uf sel).2.1 =
        updateById store r.id (activateUB now) := by
  unfold applySelectedUB
  split
  · exact Or.inl rfl
  · split
    · exact Or.inl rfl
    · rename_i data heq
      split
      · exact Or.inl rfl
      · rename_i hused
        split
        · exact Or.inl rfl
        · exact Or.inr ⟨data, heq, Bool.not_eq_true _ ▸ hused, rfl⟩

/-- Any machine-bound invocation either leaves the table unchanged or
performs the activation update with the request's machineId. -/
theorem handlerMB_store_shape (env : Env) (ev : EventMB) (store : List Record)
    (sf : Option String) (uf : Bool) (now : Nat) :
    (handlerMB env ev store sf uf now).store = store ∨
    ∃ (b : BodyMB) (r : Record), ev.body = some b ∧ r.is_used = false ∧
      (handlerMB env ev store sf uf now).store =
        updateById store r.id (activateMB b.machineId now) := by
  unfold handlerMB
  split
  · exact Or.inl rfl
  · split
    · exact Or.inl rfl
    · split
      · exact Or.inl rfl
      · split
        · exact Or.inl rfl
        · rename_i b heq
          split
          · exact Or.inl rfl
          · split
            · exact Or.inl rfl
            · rename_i c htrim
              rcases applySelected_store_shape store b.machineId now uf
                  (doSelect store c sf) with h | ⟨r, h1, h2, h3⟩
              · exact Or.inl h
              · exact Or.inr ⟨b, r, heq, h2, h3⟩

/-- Any machine-unbound invocation either leaves the table unchanged or
performs the unbound activation update (never touching `machine_id`). -/
theorem handlerUB_store_shape (env : Env) (ev : EventUB) (store : List Record)
    (sf : Option String) (uf : Bool) (now : Nat) :
    (handlerUB env ev store sf uf now).store = store ∨
    ∃ r : Record, r.is_used = false ∧
      (handlerUB env ev store sf uf now).store =
        updateById store r.id (activateUB now) := by
  unfold handlerUB
  split
  · exact Or.inl rfl
  · split
    · exact Or.inl rfl
    · split
      · exact Or.inl rfl
      · split
        · exact Or.inl rfl
        · rename_i b heq
          split
          · exact Or.inl rfl
          · rcases applySelectedUB_store_shape store now uf
                (doSelect store (jsTrimStr (strOf b.code)) sf) with h | ⟨r, h1, h2, h3⟩
            · exact Or.inl h
            · exact Or.inr ⟨r, h2, h3⟩

/-- One machine-bound invocation preserves the data-model invariant. -/
theorem recordInv_step_MB (env : Env) (ev : EventMB) (store : List Record)
    (sf : Option String) (uf : Bool) (now : Nat)
    (h : ∀ x ∈ store, recordInv x = true) :
    ∀ x ∈ (handlerMB env ev store sf uf now).store, recordInv x = true := by
  intro x hx
  rcases handlerMB_store_shape env ev store sf uf now with hs | ⟨b, r, hb, hr, hs⟩
  · exact h x (hs ▸ hx)
  · rw [hs] at hx
    rcases mem_updateById _ _ _ x hx with hmem | ⟨y, hy, rfl⟩
    · exact h x hmem
    · rfl

/-- One machine-unbound invocation preserves the `used_at` ↔ `is_used`
half of the invariant. -/
theorem usedAtInv_step_UB (env : Env) (ev : EventUB) (store : List Record)
    (sf : Option String) (uf : Bool) (now : Nat)
    (h : ∀ x ∈ store, usedAtInv x = true) :
    ∀ x ∈ (handlerUB env ev store sf uf now).store, usedAtInv x = true := by
  intro x hx
  rcases handlerUB_store_shape env ev store sf uf now with hs | ⟨r, hr, hs⟩
  · exact h x (hs ▸ hx)
  · rw [hs] at hx
    rcases mem_updateById _ _ _ x hx with hmem | ⟨y, hy, rfl⟩
    · exact h x hmem
    · rfl

/-- Any sequence of machine-bound invocations preserves the invariant. -/
theorem recordInv_runMB (env : Env) (calls : List CallMB) :
    ∀ store : List Record, (∀ x ∈ store, recordInv x = true) →
      ∀ x ∈ runMB env calls store, recordInv x = true := by
  induction calls with
  | nil => intro store h x hx; exact h x (by simpa [runMB] using hx)
  | cons q qs ih =>
    intro store h x hx
    have heq : runMB env (q :: qs) store =
        runMB env qs ((handlerMB env q.ev store q.sf q.uf q.now).store) := rfl
    rw [heq] at hx
    exact ih _ (recordInv_step_MB env q.ev store q.sf q.uf q.now h) x hx

/-- Any sequence of machine-unbound invocations preserves the
`used_at` ↔ `is_used` invariant. -/
theorem usedAtInv_runUB (env : Env) (calls : List CallUB) :
    ∀ store : List Record, (∀ x ∈ store, usedAtInv x = true) →
      ∀ x ∈ runUB env calls store, usedAtInv x = true := by
  induction calls with
  | nil => intro store h x hx; exact h x (by simpa [runUB] using hx)
  | cons q qs ih =>
    intro store h x hx
    have heq : runUB env (q :: qs) store =
        runUB env qs ((handlerUB env q.ev store q.sf q.uf q.now).store) := rfl
    rw [heq] at hx
    exact ih _ (usedAtInv_step_UB env q.ev store q.sf q.uf q.now h) x hx

/-- C1: in the machine-bound variant, a valid request whose code matches an
unused record produces HTTP 200 with success = true, and the table changes
by exactly one row update, keyed by the record's id, that sets `is_used` to
true, `used_at` to the current time and `machine_id` to the submitted
machineId, leaving every other row in place. -/
theorem C1_first_activation (env : Env) (s : String) (m : JSValue)
    (store : List Record) (r : Record) (now : Nat)
    (henv : (strFalsy env.supabaseUrl || strFalsy env.supabaseAnonKey) = false)
    (hs : s ≠ "") (hm : truthy m = true)
    (hfind : store.filter (fun x => x.code == jsTrimStr s) = [r])
    (hunused : r.is_used = false)
    (hids : (store.map Record.id).Nodup) :
    ∃ l1 l2, store = l1 ++ r :: l2 ∧
      handlerMB env ⟨"POST", some ⟨.vStr s, m⟩⟩ store none false now =
        ⟨⟨200, some ⟨true, "Application activated successfully."⟩⟩,
          l1 ++ { r with is_used := true, used_at := some now,
                         machine_id := some m } :: l2, 1, 1⟩ := by
  have hmem : r ∈ store := by
    refine List.mem_of_mem_filter (p := fun x => x.code == jsTrimStr s) ?_
    rw [hfind]; exact List.mem_singleton_self r
  obtain ⟨l1, l2, hsplit, hupd⟩ :=
    updateById_split store r (activateMB m now) hmem hids
  refine ⟨l1, l2, hsplit, ?_⟩
  have hpost := handlerMB_post env ⟨.vStr s, m⟩ store none false now
    (jsTrimStr s) henv (by simp [truthy, hs]) hm rfl
  have hsel : doSelect store (jsTrimStr s) none = (some r, none) :=
    selectSingle_found store (jsTrimStr s) r hfind
  rw [hpost]
  simp only [hsel, applySelected_unused store m now r hunused, hupd]
  rfl

/-- Concrete instance of the first-activation theorem. -/
theorem C1_first_activation_witness :
    ∃ l1 l2, [rowK] = l1 ++ rowK :: l2 ∧
      handlerMB envW ⟨"POST", some ⟨.vStr "K", .vStr "A"⟩⟩ [rowK] none false 7 =
        ⟨⟨200, some ⟨true, "Application activated successfully."⟩⟩,
          l1 ++ { rowK with is_used := true, used_at := some 7,
                            machine_id := some (.vStr "A") } :: l2, 1, 1⟩ :=
  C1_first_activation envW "K" (.vStr "A") [rowK] rowK 7 (by decide) (by decide)
    (by decide) (by decide) (by decide) (by decide)

/-- C2 counterexample: a store satisfying the invariants, a single
machine-unbound invocation that answers 200, and a resulting store that
violates the invariant "once is_used is true, machine_id is non-null". -/
theorem C2_counterexample :
    ([rowK].all recordInv = true) ∧
    (handlerUB envW ⟨"POST", some ⟨.vStr "K"⟩⟩ [rowK] none false 7).resp.statusCode
      = 200 ∧
    ((runUB envW [callU] [rowK]).all recordInv = false) := by
  decide

/-- C2 (amended): any sequence of machine-bound invocations preserves both
invariants; a machine-bound invocation that flips a row from unused to used
stores exactly the submitted machineId in it; and any sequence of
machine-unbound invocations preserves `used_at` ↔ `is_used` (the non-null
`machine_id` invariant fails in that variant, as the counterexample shows). -/
theorem C2_invariants :
    (∀ (env : Env) (calls : List CallMB) (store : List Record),
        (∀ x ∈ store, recordInv x = true) →
        ∀ x ∈ runMB env calls store, recordInv x = true) ∧
    (∀ (env : Env) (ev : EventMB) (store : List Record) (sf : Option String)
        (uf : Bool) (now : Nat) (b : BodyMB) (i : Nat) (r r' : Record),
        ev.body = some b →
        store[i]? = some r →
        (handlerMB env ev store sf uf now).store[i]? = some r' →
        r.is_used = false → r'.is_used = true →
        r'.machine_id = some b.machineId) ∧
    (∀ (env : Env) (calls : List CallUB) (store : List Record),
        (∀ x ∈ store, usedAtInv x = true) →
        ∀ x ∈ runUB env calls store, usedAtInv x = true) := by
  refine ⟨fun env calls store h => recordInv_runMB env calls store h, ?_,
    fun env calls store h => usedAtInv_runUB env calls store h⟩
  intro env ev store sf uf now b i r r' hbody hr hr' hfalse htrue
  rcases handlerMB_store_shape env ev store sf uf now with hs | ⟨b', r0, hb, hr0, hs⟩
  · rw [hs, hr] at hr'
    cases hr'
    rw [hfalse] at htrue
    cases htrue
  · rw [hb] at hbody
    cases hbody
    rw [hs] at hr'
    unfold updateById at hr'
    rw [List.getElem?_map, hr] at hr'
    simp only [Option.map_some'] at hr'
    by_cases hid : r.id = r0.id
    · rw [if_pos hid] at hr'
      cases hr'
      rfl
    · rw [if_neg hid] at hr'
      cases hr'
      rw [hfalse] at htrue
      cases htrue

/-- Concrete instance of the amended invariant theorem: the invariant after
an activating machine-bound run, the machineId stored by that activation,
and the weak invariant after a machine-unbound run. -/
theorem C2_invariants_witness :
    (recordInv rowKA = true) ∧
    (rowKA.machine_id = some (.vStr "A")) ∧
    (usedAtInv rowKUB = true) :=
  ⟨C2_invariants.1 envW [callA] [rowK] (by decide) rowKA (by decide),
    C2_invariants.2.1 envW ⟨"POST", some ⟨.vStr "K", .vStr "A"⟩⟩ [rowK] none false 7
      ⟨.vStr "K", .vStr "A"⟩ 0 rowK rowKA rfl (by decide) (by decide)
      (by decide) (by decide),
    C2_invariants.2.2 envW [callU] [rowK] (by decide) rowKUB (by decide)⟩

/-- C3: in the machine-bound variant, a valid request whose code matches a
used record bound to the same machine returns HTTP 200 with success = true
and performs no store mutation: the table is unchanged and no update
statement is issued (for any update-fault setting, since no update runs). -/
theorem C3_same_machine_reverify (env : Env) (s : String) (m : JSValue)
    (store : List Record) (r : Record) (now : Nat) (uf : Bool)
    (henv : (strFalsy env.supabaseUrl || strFalsy env.supabaseAnonKey) = false)
    (hs : s ≠ "") (hm : truthy m = true)
    (hfind : store.filter (fun x => x.code == jsTrimStr s) = [r])
    (hused : r.is_used = true)
    (hsame : (dbVal r.machine_id == m) = true) :
    handlerMB env ⟨"POST", some ⟨.vStr s, m⟩⟩ store none uf now =
      ⟨⟨200, some ⟨true, "Verification successful."⟩⟩, store, 1, 0⟩ := by
  have hpost := handlerMB_post env ⟨.vStr s, m⟩ store none uf now
    (jsTrimStr s) henv (by simp [truthy, hs]) hm rfl
  have hsel : doSelect store (jsTrimStr s) none = (some r, none) :=
    selectSingle_found store (jsTrimStr s) r hfind
  rw [hpost]
  simp only [hsel, applySelected_same store m now uf r hused hsame]

/-- Concrete instance of the idempotent re-verification theorem. -/
theorem C3_same_machine_reverify_witness :
    handlerMB envW ⟨"POST", some ⟨.vStr "L", .vStr "M"⟩⟩ [rowUsed] none false 9 =
      ⟨⟨200, some ⟨true, "Verification successful."⟩⟩, [rowUsed], 1, 0⟩ :=
  C3_same_machine_reverify envW "L" (.vStr "M") [rowUsed] rowUsed 9 false
    (by decide) (by decide) (by decide) (by decide) (by decide) (by decide)

/-- C4: for a code already used and bound to a different machine, the
machine-bound variant answers HTTP 403 with success = false and performs
no mutation, and the machine-unbound variant answers HTTP 404 — whatever
machine `m` submitted the request. -/
theorem C4_used_elsewhere (env : Env) (s : String) (m : JSValue)
    (store : List Record) (r : Record) (now : Nat) (uf : Bool)
    (henv : (strFalsy env.supabaseUrl || strFalsy env.supabaseAnonKey) = false)
    (htr : (jsTrimStr s == "") = false) (hm : truthy m = true)
    (hfind : store.filter (fun x => x.code == jsTrimStr s) = [r])
    (hused : r.is_used = true)
    (hdiff : (dbVal r.machine_id == m) = false) :
    handlerMB env ⟨"POST", some ⟨.vStr s, m⟩⟩ store none uf now =
      ⟨⟨403, some ⟨false, "This code has already been used on another computer."⟩⟩,
        store, 1, 0⟩ ∧
    handlerUB env ⟨"POST", some ⟨.vStr s⟩⟩ store none uf now =
      ⟨⟨404, some ⟨false, "Invalid or already used verification code."⟩⟩,
        store, 1, 0⟩ := by
  have hs : s ≠ "" := by
    intro h
    rw [h] at htr
    exact absurd htr (by decide)
  have hsel : doSelect store (jsTrimStr s) none = (some r, none) :=
    selectSingle_found store (jsTrimStr s) r hfind
  constructor
  · have hpost := handlerMB_post env ⟨.vStr s, m⟩ store none uf now
      (jsTrimStr s) henv (by simp [truthy, hs]) hm rfl
    rw [hpost]
    simp only [hsel, applySelected_other store m now uf r hused hdiff]
  · have hpost := handlerUB_post env ⟨.vStr s⟩ store none uf now
      henv (by simp [truthy, hs]) rfl htr
    rw [hpost]
    simp only [strOf, hsel, applySelectedUB_used store now uf r hused]

/-- Concrete instance of the conflicting-machine theorem. -/
theorem C4_used_elsewhere_witness :
    handlerMB envW ⟨"POST", some ⟨.vStr "L", .vStr "N"⟩⟩ [rowUsed] none false 9 =
      ⟨⟨403, some ⟨false, "This code has already been used on another computer."⟩⟩,
        [rowUsed], 1, 0⟩ ∧
    handlerUB envW ⟨"POST", some ⟨.vStr "L"⟩⟩ [rowUsed] none false 9 =
      ⟨⟨404, some ⟨false, "Invalid or already used verification code."⟩⟩,
        [rowUsed], 1, 0⟩ :=
  C4_used_elsewhere envW "L" (.vStr "N") [rowUsed] rowUsed 9 false
    (by decide) (by decide) (by decide) (by decide) (by decide) (by decide)

/-- C5: when the trimmed code matches no row, the select reports "no rows"
as PGRST116 with null data, and both variants turn that into HTTP 404 with
success = false and no mutation — not into a 500 infrastructure failure. -/
theorem C5_unknown_code (env : Env) (s : String) (m : JSValue)
    (store : List Record) (now : Nat) (uf : Bool)
    (henv : (strFalsy env.supabaseUrl || strFalsy env.supabaseAnonKey) = false)
    (htr : (jsTrimStr s == "") = false) (hm : truthy m = true)
    (hfind : store.filter (fun x => x.code == jsTrimStr s) = []) :
    selectSingle store (jsTrimStr s) = (none, some "PGRST116") ∧
    handlerMB env ⟨"POST", some ⟨.vStr s, m⟩⟩ store none uf now =
      ⟨⟨404, some ⟨false, "Invalid verification code."⟩⟩, store, 1, 0⟩ ∧
    handlerUB env ⟨"POST", some ⟨.vStr s⟩⟩ store none uf now =
      ⟨⟨404, some ⟨false, "Invalid or already used verification code."⟩⟩,
        store, 1, 0⟩ := by
  have hs : s ≠ "" := by
    intro h
    rw [h] at htr
    exact absurd htr (by decide)
  have hsel : doSelect store (jsTrimStr s) none = (none, some "PGRST116") :=
    selectSingle_empty store (jsTrimStr s) hfind
  refine ⟨hsel, ?_, ?_⟩
  · have hpost := handlerMB_post env ⟨.vStr s, m⟩ store none uf now
      (jsTrimStr s) henv (by simp [truthy, hs]) hm rfl
    rw [hpost]
    simp only [hsel, applySelected_none store m now uf]
  · have hpost := handlerUB_post env ⟨.vStr s⟩ store none uf now
      henv (by simp [truthy, hs]) rfl htr
    rw [hpost]
    simp only [strOf, hsel, applySelectedUB_none store now uf]

/-- Concrete instance of the unknown-code theorem. -/
theorem C5_unknown_code_witness :
    selectSingle [rowK] (jsTrimStr "X") = (none, some "PGRST116") ∧
    handlerMB envW ⟨"POST", some ⟨.vStr "X", .vStr "M"⟩⟩ [rowK] none false 9 =
      ⟨⟨404, some ⟨false, "Invalid verification code."⟩⟩, [rowK], 1, 0⟩ ∧
    handlerUB envW ⟨"POST", some ⟨.vStr "X"⟩⟩ [rowK] none false 9 =
      ⟨⟨404, some ⟨false, "Invalid or already used verification code."⟩⟩,
        [rowK], 1, 0⟩ :=
  C5_unknown_code envW "X" (.vStr "M") [rowK] 9 false
    (by decide) (by decide) (by decide) (by decide)

/-- A POST request with well-formed body failing the machine-bound input
validation is rejected with 400 before any store call. -/
theorem handlerMB_badinput (env : Env) (b : BodyMB) (store : List Record)
    (sf : Option String) (uf : Bool) (now : Nat)
    (henv : (strFalsy env.supabaseUrl || strFalsy env.supabaseAnonKey) = false)
    (h : (!truthy b.code || !truthy b.machineId) = true) :
    handlerMB env ⟨"POST", some b⟩ store sf uf now =
      ⟨⟨400, some ⟨false, "Verification code and machine ID are required."⟩⟩,
        store, 0, 0⟩ := by
  simp only [handlerMB]
  rw [if_neg (by decide), if_neg (by decide), if_neg (by simp [henv])]
  simp [h]

/-- A POST request with well-formed body failing the machine-unbound input
validation is rejected with 400 before any store call. -/
theorem handlerUB_badinput (env : Env) (b : BodyUB) (store : List Record)
    (sf : Option String) (uf : Bool) (now : Nat)
    (henv : (strFalsy env.supabaseUrl || strFalsy env.supabaseAnonKey) = false)
    (h : (!truthy b.code || !isStr b.code || (jsTrimStr (strOf b.code) == "")) = true) :
    handlerUB env ⟨"POST", some b⟩ store sf uf now =
      ⟨⟨400, some ⟨false, "Verification code is required."⟩⟩, store, 0, 0⟩ := by
  simp only [handlerUB]
  rw [if_neg (by decide), if_neg (by decide), if_neg (by simp [henv])]
  simp [h]

/-- C6: a POST with missing `code`, empty-string `code`, or (machine-bound)
missing `machineId` gets HTTP 400 with success = false, and neither a
select nor an update statement is attempted. -/
theorem C6_missing_input (env : Env) (store : List Record) (sf : Option String)
    (uf : Bool) (now : Nat)
    (henv : (strFalsy env.supabaseUrl || strFalsy env.supabaseAnonKey) = false) :
    (∀ cv mv : JSValue, cv = .vUndefined ∨ cv = .vStr "" ∨ mv = .vUndefined →
        handlerMB env ⟨"POST", some ⟨cv, mv⟩⟩ store sf uf now =
          ⟨⟨400, some ⟨false, "Verification code and machine ID are required."⟩⟩,
            store, 0, 0⟩) ∧
    (∀ cv : JSValue, cv = .vUndefined ∨ cv = .vStr "" →
        handlerUB env ⟨"POST", some ⟨cv⟩⟩ store sf uf now =
          ⟨⟨400, some ⟨false, "Verification code is required."⟩⟩, store, 0, 0⟩) := by
  constructor
  · intro cv mv hcase
    refine handlerMB_badinput env ⟨cv, mv⟩ store sf uf now henv ?_
    rcases hcase with rfl | rfl | rfl <;> simp [truthy]
  · intro cv hcase
    refine handlerUB_badinput env ⟨cv⟩ store sf uf now henv ?_
    rcases hcase with rfl | rfl <;> simp [truthy]

/-- Concrete instance of the missing-input theorem. -/
theorem C6_missing_input_witness :
    handlerMB envW ⟨"POST", some ⟨.vUndefined, .vStr "M"⟩⟩ [rowK] none false 9 =
      ⟨⟨400, some ⟨false, "Verification code and machine ID are required."⟩⟩,
        [rowK], 0, 0⟩ ∧
    handlerUB envW ⟨"POST", some ⟨.vStr ""⟩⟩ [rowK] none false 9 =
      ⟨⟨400, some ⟨false, "Verification code is required."⟩⟩, [rowK], 0, 0⟩ :=
  ⟨(C6_missing_input envW [rowK] none false 9 (by decide)).1 .vUndefined
      (.vStr "M") (Or.inl rfl),
    (C6_missing_input envW [rowK] none false 9 (by decide)).2 (.vStr "")
      (Or.inr rfl)⟩

/-- Every response the machine-bound post-select step can build is one of
the documented structured responses. -/
theorem structuredResp_applySelected (store : List Record) (m : JSValue)
    (now : Nat) (uf : Bool) (sel : Option Record × Option String) :
    structuredResp (applySelected store m now uf sel).1 = true := by
  unfold applySelected
  split
  · rfl
  · split
    · rfl
    · split
      · split
        · rfl
        · rfl
      · split
        · rfl
        · rfl

/-- Every response the machine-unbound post-select step can build is one of
the documented structured responses. -/
theorem structuredResp_applySelectedUB (store : List Record) (now : Nat)
    (uf : Bool) (sel : Option Record × Option String) :
    structuredResp (applySelectedUB store now uf sel).1 = true := by
  unfold applySelectedUB
  split
  · rfl
  · split
    · rfl
    · split
      · rfl
      · split
        · rfl
        · rfl

/-- C7 counterexample: with a healthy configuration, a POST whose body fails
to parse is answered with HTTP 500 — not with a 4xx status as the claim
requires — though indeed without any store access. -/
theorem C7_counterexample :
    (handlerMB envW ⟨"POST", none⟩ [rowK] none false 0).resp.statusCode = 500 ∧
    ¬(400 ≤ (handlerMB envW ⟨"POST", none⟩ [rowK] none false 0).resp.statusCode ∧
        (handlerMB envW ⟨"POST", none⟩ [rowK] none false 0).resp.statusCode < 500) ∧
    (handlerMB envW ⟨"POST", none⟩ [rowK] none false 0).selects = 0 := by
  decide

/-- C7 (amended): a POST with malformed or missing body is caught at the
handler boundary and converted to a structured HTTP 500 JSON response with
success = false and a generic message, with no store access and no
mutation, in both variants; and every invocation of either handler yields a
structured response (documented status code, empty body exactly for 204,
success flag true exactly for 200). -/
theorem C7_fault_containment :
    (∀ (env : Env) (store : List Record) (sf : Option String) (uf : Bool) (now : Nat),
        (strFalsy env.supabaseUrl || strFalsy env.supabaseAnonKey) = false →
        handlerMB env ⟨"POST", none⟩ store sf uf now =
          ⟨⟨500, some ⟨false, "An unexpected error occurred."⟩⟩, store, 0, 0⟩) ∧
    (∀ (env : Env) (store : List Record) (sf : Option String) (uf : Bool) (now : Nat),
        (strFalsy env.supabaseUrl || strFalsy env.supabaseAnonKey) = false →
        handlerUB env ⟨"POST", none⟩ store sf uf now =
          ⟨⟨500, some ⟨false, "An unexpected error occurred."⟩⟩, store, 0, 0⟩) ∧
    (∀ (env : Env) (ev : EventMB) (store : List Record) (sf : Option String)
        (uf : Bool) (now : Nat),
        structuredResp (handlerMB env ev store sf uf now).resp = true) ∧
    (∀ (env : Env) (ev : EventUB) (store : List Record) (sf : Option String)
        (uf : Bool) (now : Nat),
        structuredResp (handlerUB env ev store sf uf now).resp = true) := by
  refine ⟨?_, ?_, ?_, ?_⟩
  · intro env store sf uf now h
    simp only [handlerMB]
    rw [if_neg (by decide), if_neg (by decide), if_neg (by simp [h])]
  · intro env store sf uf now h
    simp only [handlerUB]
    rw [if_neg (by decide), if_neg (by decide), if_neg (by simp [h])]
  · intro env ev store sf uf now
    unfold handlerMB
    split
    · rfl
    · split
      · rfl
      · split
        · rfl
        · split
          · rfl
          · rename_i b heq
            split
            · rfl
            · split
              · rfl
              · rename_i c htrim
                exact structuredResp_applySelected store b.machineId now uf
                  (doSelect store c sf)
  · intro env ev store sf uf now
    unfold handlerUB
    split
    · rfl
    · split
      · rfl
      · split
        · rfl
        · split
          · rfl
          · rename_i b heq
            split
            · rfl
            · exact structuredResp_applySelectedUB store now uf
                (doSelect store (jsTrimStr (strOf b.code)) sf)

/-- Concrete instance of the fault-containment theorem. -/
theorem C7_fault_containment_witness :
    handlerMB envW ⟨"POST", none⟩ [rowK] none false 0 =
      ⟨⟨500, some ⟨false, "An unexpected error occurred."⟩⟩, [rowK], 0, 0⟩ ∧
    handlerUB envW ⟨"POST", none⟩ [rowK] none false 0 =
      ⟨⟨500, some ⟨false, "An unexpected error occurred."⟩⟩, [rowK], 0, 0⟩ ∧
    structuredResp (handlerMB envW ⟨"GET", none⟩ [rowK] none false 0).resp = true ∧
    structuredResp (handlerUB envW ⟨"OPTIONS", none⟩ [rowK] none false 0).resp = true :=
  ⟨C7_fault_containment.1 envW [rowK] none false 0 (by decide),
    C7_fault_containment.2.1 envW [rowK] none false 0 (by decide),
    C7_fault_containment.2.2.1 envW ⟨"GET", none⟩ [rowK] none false 0,
    C7_fault_containment.2.2.2 envW ⟨"OPTIONS", none⟩ [rowK] none false 0⟩

/-- C8: the handler's separate select-then-update admits the lost-update
race. When two first-activation requests for the never-used code "K" (by
machines "A" and "B") both run their select before either update, both are
answered HTTP 200 success, and the row ends bound to "B" even though the
request binding "A" was also reported successful — not exactly one success. -/
theorem C8_lost_update_race :
    raceMB [rowK] "K" (.vStr "A") (.vStr "B") 10 11 =
      (⟨200, some ⟨true, "Application activated successfully."⟩⟩,
        ⟨200, some ⟨true, "Application activated successfully."⟩⟩,
        [⟨1, "K", true, some (.vStr "B"), some 11⟩]) := by
  decide

/-- C9: any method other than POST and OPTIONS is answered 405 with
success = false — for every body, parsed or not, so the body is never
consulted — with no store access; OPTIONS is answered 204 with empty body.
Both variants. -/
theorem C9_method_gate (env : Env) (store : List Record) (sf : Option String)
    (uf : Bool) (now : Nat) :
    (∀ (method : String) (body : Option BodyMB),
        method ≠ "POST" → method ≠ "OPTIONS" →
        handlerMB env ⟨method, body⟩ store sf uf now =
          ⟨⟨405, some ⟨false, "Method Not Allowed"⟩⟩, store, 0, 0⟩) ∧
    (∀ body : Option BodyMB,
        handlerMB env ⟨"OPTIONS", body⟩ store sf uf now =
          ⟨⟨204, none⟩, store, 0, 0⟩) ∧
    (∀ (method : String) (body : Option BodyUB),
        method ≠ "POST" → method ≠ "OPTIONS" →
        handlerUB env ⟨method, body⟩ store sf uf now =
          ⟨⟨405, some ⟨false, "Method Not Allowed"⟩⟩, store, 0, 0⟩) ∧
    (∀ body : Option BodyUB,
        handlerUB env ⟨"OPTIONS", body⟩ store sf uf now =
          ⟨⟨204, none⟩, store, 0, 0⟩) := by
  refine ⟨?_, ?_, ?_, ?_⟩
  · intro method body h1 h2
    simp [handlerMB, h1, h2]
  · intro body
    simp [handlerMB]
  · intro method body h1 h2
    simp [handlerUB, h1, h2]
  · intro body
    simp [handlerUB]

/-- Concrete instance of the method-gate theorem. -/
theorem C9_method_gate_witness :
    handlerMB envW ⟨"GET", none⟩ [rowK] none false 0 =
      ⟨⟨405, some ⟨false, "Method Not Allowed"⟩⟩, [rowK], 0, 0⟩ ∧
    handlerMB envW ⟨"OPTIONS", none⟩ [rowK] none false 0 =
      ⟨⟨204, none⟩, [rowK], 0, 0⟩ ∧
    handlerUB envW ⟨"GET", none⟩ [rowK] none false 0 =
      ⟨⟨405, some ⟨false, "Method Not Allowed"⟩⟩, [rowK], 0, 0⟩ ∧
    handlerUB envW ⟨"OPTIONS", none⟩ [rowK] none false 0 =
      ⟨⟨204, none⟩, [rowK], 0, 0⟩ :=
  ⟨(C9_method_gate envW [rowK] none false 0).1 "GET" none (by decide) (by decide),
    (C9_method_gate envW [rowK] none false 0).2.1 none,
    (C9_method_gate envW [rowK] none false 0).2.2.1 "GET" none (by decide) (by decide),
    (C9_method_gate envW [rowK] none false 0).2.2.2 none⟩

/-- C10: in the machine-bound variant a truthy non-string code (the number
5) passes the input validation, `code.trim()` then throws, and the request
is answered 500 with no store access; a whitespace-only code and machineId
also pass validation and reach the store lookup (whose trimmed key matches
nothing, hence 404). -/
theorem C10_validation_gap :
    handlerMB envW ⟨"POST", some ⟨.vNum 5, .vStr "M"⟩⟩ [rowK] none false 0 =
      ⟨⟨500, some ⟨false, "An unexpected error occurred."⟩⟩, [rowK], 0, 0⟩ ∧
    (handlerMB envW ⟨"POST", some ⟨.vStr " ", .vStr " "⟩⟩ [rowK] none false 0).selects
      = 1 ∧
    (handlerMB envW ⟨"POST", some ⟨.vStr " ", .vStr " "⟩⟩ [rowK] none false 0).resp.statusCode
      = 404 := by
  decide
